import Mathlib

/-!
Shallow embedding of `app/app.py` (EKS CloudForge Flask application).

The application is a single-process HTTP service with two pieces of global
state (`START_TIME`, `REQUEST_COUNT`), six route handlers
(`index`, `health`, `status`, `metrics`, `prometheus_metrics`, `api_info`)
and two error handlers (`not_found`, `internal_error`).

Modelling conventions:
* Python floats are modelled as rationals (ℚ); byte counts and the request
  counter as naturals (ℕ).
* `datetime.now()` is modelled as a per-request clock reading in microseconds
  since the epoch, carried by an `Env` record; the several `datetime.now()`
  calls inside a single handler are modelled as one reading.  The clock is
  assumed monotone (`now ≥ START_TIME`), which holds in the program since
  `START_TIME` is captured at process start.
* Calendar renderings of absolute timestamps (`isoformat`, `strftime`,
  `platform.node()` …) are opaque strings supplied by the environment: no
  claim constrains their content.  Relative time (`now - START_TIME`) is
  computed arithmetically, and `str(timedelta)` is embedded faithfully.
* `psutil.cpu_percent`, `psutil.virtual_memory`, `psutil.disk_usage` can
  raise; they are modelled as `Except String _` values in the environment.
  The handlers call them without any try/except, so a failure propagates out
  of the handler; Flask then answers the request through the registered 500
  handler.  This is modelled by `handle`.
* `jsonify(...)` bodies are embedded as a `Json` tree mirroring the Python
  dict literals key-for-key in order.
-/

namespace CloudForge

/-- JSON values, as produced by `jsonify`. -/
inductive Json where
  | str : String → Json
  | nat : ℕ → Json
  | rat : ℚ → Json
  | bool : Bool → Json
  | arr : List Json → Json
  | obj : List (String × Json) → Json

/-- Lookup of a key in an association list of JSON object members. -/
def lookupKey : List (String × Json) → String → Option Json
  | [], _ => none
  | (k, v) :: rest, k0 => if k = k0 then some v else lookupKey rest k0

/-- Lookup of a key in a JSON object (`none` on non-objects). -/
def Json.getKey : Json → String → Option Json
  | .obj kvs, k => lookupKey kvs k
  | _, _ => none

/-- `psutil.virtual_memory()` snapshot (bytes and percent). -/
structure MemStats where
  total : ℕ
  available : ℕ
  used : ℕ
  percent : ℚ

/-- `psutil.disk_usage("/")` snapshot (bytes). -/
structure DiskStats where
  total : ℕ
  used : ℕ
  free : ℕ

/-- Per-request environment: OS readings (each fallible, as the underlying
psutil call can raise) and the ambient clock / host facts. -/
structure Env where
  cpuPercent : Except String ℚ
  virtualMemory : Except String MemStats
  diskUsage : Except String DiskStats
  nowMicros : ℕ
  nowIso : String
  unixTime : ℕ
  hostname : String
  platformStr : String
  pythonVersion : String
  cpuCount : ℕ
  awsRegion : Option String
  eksClusterName : Option String
  podName : Option String
  podNamespace : Option String

/-- Process-wide mutable state: `START_TIME` (with its two opaque text
renderings used by the handlers) and `REQUEST_COUNT`. -/
structure AppState where
  startMicros : ℕ
  startIso : String
  startStrftime : String
  requestCount : ℕ

/-- `REQUEST_COUNT += 1` (as a whole; its non-atomicity under threads is
modelled separately below). -/
def incr (s : AppState) : AppState :=
  { s with requestCount := s.requestCount + 1 }

/-- Microseconds elapsed since process start (`datetime.now() - START_TIME`). -/
def elapsedMicros (s : AppState) (env : Env) : ℕ :=
  env.nowMicros - s.startMicros

/-- `timedelta.total_seconds()` of an elapsed microsecond count. -/
def totalSeconds (micros : ℕ) : ℚ :=
  (micros : ℚ) / 1000000

/-- Decimal rendering of `n`, zero-padded to width `w` (the `%02d` / `%06d`
format specifiers used by `timedelta.__str__`). -/
def padNat (w n : ℕ) : String :=
  let s := toString n
  if s.length < w then String.mk (List.replicate (w - s.length) '0') ++ s else s

/-- `str(timedelta)` for a non-negative timedelta given in microseconds:
`[D day(s), ]H:MM:SS[.ffffff]`, the fraction present only when the
microsecond remainder is non-zero. -/
def timedeltaStr (micros : ℕ) : String :=
  let us := micros % 1000000
  let secs := micros / 1000000
  let days := secs / 86400
  let rem := secs % 86400
  let hh := rem / 3600
  let mm := rem % 3600 / 60
  let ss := rem % 60
  let base := toString hh ++ ":" ++ padNat 2 mm ++ ":" ++ padNat 2 ss
  let base2 := if days = 0 then base
    else toString days ++ (if days = 1 then " day, " else " days, ") ++ base
  if us = 0 then base2 else base2 ++ "." ++ padNat 6 us

/-- The characters before the first `'.'` of a character list:
`s.split(".")[0]` in Python. -/
def beforeDot : List Char → List Char
  | [] => []
  | c :: cs => if c = '.' then [] else c :: beforeDot cs

/-- `str(uptime).split(".")[0]` — the uptime string with fractional seconds
removed, as computed in `index`, `health` and `status`. -/
def uptimeStr (micros : ℕ) : String :=
  String.mk (beforeDot (timedeltaStr micros).data)

/-- Python's round-half-to-even on a rational, the rounding used by
`round(x, n)`. -/
def roundHalfEven (x : ℚ) : ℤ :=
  let f : ℤ := ⌊x⌋
  let r : ℚ := x - f
  if r < 1/2 then f
  else if 1/2 < r then f + 1
  else if f % 2 = 0 then f else f + 1

/-- `round(x, 2)`. -/
def round2 (x : ℚ) : ℚ :=
  (roundHalfEven (x * 100) : ℚ) / 100

/-- `os.environ.get(var, "unknown")`. -/
def envGet (v : Option String) : String := v.getD "unknown"

/-- The values substituted into `HTML_TEMPLATE` by `render_template_string`
in `index`; the surrounding static template text carries no state. -/
structure IndexPage where
  request_count : ℕ
  uptime : String
  start_time : String
  hostname : String

/-- One line of the `/prometheus` text body: each `metrics.append(...)` in
`prometheus_metrics` contributes exactly one of these. -/
inductive PromLine where
  | help : String → String → PromLine
  | type : String → String → PromLine
  | sample : String → Option String → ℚ → PromLine

/-- Rendering of one Prometheus line to text (`# HELP`/`# TYPE` comments,
`name{labels} value` samples). -/
def PromLine.render : PromLine → String
  | .help n t => "# HELP " ++ n ++ " " ++ t
  | .type n t => "# TYPE " ++ n ++ " " ++ t
  | .sample n ls v => n ++ ls.getD "" ++ " " ++ toString v

/-- The newline-joined `/prometheus` body (`"\n".join(metrics)`). -/
def promBody (lines : List PromLine) : String :=
  String.intercalate "\n" (lines.map PromLine.render)

/-- A response body: a JSON document, the rendered HTML page, or the
Prometheus plain-text line list. -/
inductive Body where
  | json : Json → Body
  | html : IndexPage → Body
  | prom : List PromLine → Body

/-- An HTTP response: status code and body. -/
structure Response where
  code : ℕ
  body : Body

/-- The label string `{container="eks-cloudforge-app"}`. -/
def containerLabel : String := "\x7bcontainer=\"eks-cloudforge-app\"\x7d"

/-- The label string `{job="eks-cloudforge-app",status="200"}`. -/
def jobStatusLabel : String := "\x7bjob=\"eks-cloudforge-app\",status=\"200\"\x7d"

/-- The label string `{job="eks-cloudforge-app"}`. -/
def jobLabel : String := "\x7bjob=\"eks-cloudforge-app\"\x7d"

/-- The list of lines built by `prometheus_metrics`, one element per
`metrics.append(...)` call, in source order. -/
def promLines (count : ℕ) (uptimeSeconds cpu : ℚ) (memUsed diskUsed diskTotal : ℕ)
    (ts : ℕ) : List PromLine :=
  [ .help "app_requests_total" "Total number of requests",
    .type "app_requests_total" "counter",
    .sample "app_requests_total" none (count : ℚ),
    .help "app_uptime_seconds" "Application uptime in seconds",
    .type "app_uptime_seconds" "gauge",
    .sample "app_uptime_seconds" none uptimeSeconds,
    .help "container_cpu_usage_seconds_total" "Total CPU usage in seconds",
    .type "container_cpu_usage_seconds_total" "counter",
    .sample "container_cpu_usage_seconds_total" (some containerLabel) (cpu / 100),
    .help "container_memory_usage_bytes" "Memory usage in bytes",
    .type "container_memory_usage_bytes" "gauge",
    .sample "container_memory_usage_bytes" (some containerLabel) (memUsed : ℚ),
    .help "container_fs_usage_bytes" "Filesystem usage in bytes",
    .type "container_fs_usage_bytes" "gauge",
    .sample "container_fs_usage_bytes" (some containerLabel) (diskUsed : ℚ),
    .help "container_fs_limit_bytes" "Filesystem limit in bytes",
    .type "container_fs_limit_bytes" "gauge",
    .sample "container_fs_limit_bytes" (some containerLabel) (diskTotal : ℚ),
    .help "http_requests_total" "Total HTTP requests",
    .type "http_requests_total" "counter",
    .sample "http_requests_total" (some jobStatusLabel) (count : ℚ),
    .help "http_request_duration_seconds_sum" "Sum of HTTP request durations",
    .type "http_request_duration_seconds_sum" "counter",
    .sample "http_request_duration_seconds_sum" (some jobLabel) ((count : ℚ) * (1/10)),
    .help "http_request_duration_seconds_count" "Count of HTTP requests",
    .type "http_request_duration_seconds_count" "counter",
    .sample "http_request_duration_seconds_count" (some jobLabel) (count : ℚ),
    .help "app_cost_per_hour" "Estimated cost per hour",
    .type "app_cost_per_hour" "gauge",
    .sample "app_cost_per_hour" (some jobLabel) ((cpu / 100) * (1/10000)),
    .help "app_metrics_timestamp" "Last metrics collection timestamp",
    .type "app_metrics_timestamp" "gauge",
    .sample "app_metrics_timestamp" none (ts : ℚ) ]

/-- `GET /` — increments the counter, then renders `HTML_TEMPLATE` with the
post-increment count, the truncated uptime string, the start-time text and
the host name. -/
def index (s : AppState) (env : Env) : AppState × Response :=
  let s1 := incr s
  (s1, { code := 200,
         body := .html { request_count := s1.requestCount,
                         uptime := uptimeStr (elapsedMicros s1 env),
                         start_time := s1.startStrftime,
                         hostname := env.hostname } })

/-- `GET /health` — increments the counter, then returns the fixed-shape
healthy body with status 200. -/
def health (s : AppState) (env : Env) : AppState × Response :=
  let s1 := incr s
  (s1, { code := 200,
         body := .json (.obj
           [ ("status", .str "healthy"),
             ("timestamp", .str env.nowIso),
             ("uptime", .str (uptimeStr (elapsedMicros s1 env))),
             ("requests_processed", .nat s1.requestCount) ]) })

/-- The body computation of `GET /status` after the counter increment: the
three psutil reads in source order, then the nested dict.  A raised psutil
exception (or the `ZeroDivisionError` from `disk.used / disk.total` when
`disk.total = 0`) propagates as `Except.error`. -/
def statusBody (s1 : AppState) (env : Env) : Except String Response :=
  match env.cpuPercent with
  | .error e => .error e
  | .ok cpu =>
  match env.virtualMemory with
  | .error e => .error e
  | .ok mem =>
  match env.diskUsage with
  | .error e => .error e
  | .ok disk =>
  if disk.total = 0 then .error "ZeroDivisionError" else
  .ok { code := 200,
         body := .json (.obj
           [ ("application", .obj
               [ ("name", .str "EKS CloudForge"),
                 ("version", .str "1.0.0"),
                 ("status", .str "running"),
                 ("start_time", .str s1.startIso),
                 ("uptime", .str (uptimeStr (elapsedMicros s1 env))),
                 ("requests_processed", .nat s1.requestCount) ]),
             ("system", .obj
               [ ("hostname", .str env.hostname),
                 ("platform", .str env.platformStr),
                 ("python_version", .str env.pythonVersion),
                 ("cpu_count", .nat env.cpuCount),
                 ("cpu_percent", .rat cpu),
                 ("memory_total_gb", .rat (round2 ((mem.total : ℚ) / 1024 ^ 3))),
                 ("memory_available_gb", .rat (round2 ((mem.available : ℚ) / 1024 ^ 3))),
                 ("memory_percent", .rat mem.percent),
                 ("disk_total_gb", .rat (round2 ((disk.total : ℚ) / 1024 ^ 3))),
                 ("disk_free_gb", .rat (round2 ((disk.free : ℚ) / 1024 ^ 3))),
                 ("disk_percent", .rat (round2 ((disk.used : ℚ) / (disk.total : ℚ) * 100))) ]),
             ("environment", .obj
               [ ("instance_type", .str "t3.micro"),
                 ("region", .str (envGet env.awsRegion)),
                 ("cluster_name", .str (envGet env.eksClusterName)),
                 ("pod_name", .str (envGet env.podName)),
                 ("namespace", .str (envGet env.podNamespace)) ]) ]) }

/-- `GET /status`. -/
def status (s : AppState) (env : Env) : AppState × Except String Response :=
  let s1 := incr s
  (s1, statusBody s1 env)

/-- The body computation of `GET /metrics` after the counter increment:
psutil reads, request-rate computation guarded against zero elapsed time,
then the metrics/alerts dict. -/
def metricsBody (s1 : AppState) (env : Env) : Except String Response :=
  match env.cpuPercent with
  | .error e => .error e
  | .ok cpu =>
  match env.virtualMemory with
  | .error e => .error e
  | .ok mem =>
  match env.diskUsage with
  | .error e => .error e
  | .ok disk =>
  let uptimeMinutes : ℚ := totalSeconds (elapsedMicros s1 env) / 60
  let requestRate : ℚ :=
    if 0 < uptimeMinutes then (s1.requestCount : ℚ) / uptimeMinutes else 0
  if disk.total = 0 then .error "ZeroDivisionError" else
  .ok { code := 200,
         body := .json (.obj
           [ ("metrics", .obj
               [ ("cpu_usage_percent", .rat cpu),
                 ("memory_usage_percent", .rat mem.percent),
                 ("memory_available_mb", .rat (round2 ((mem.available : ℚ) / 1024 ^ 2))),
                 ("disk_usage_percent", .rat (round2 ((disk.used : ℚ) / (disk.total : ℚ) * 100))),
                 ("disk_free_mb", .rat (round2 ((disk.free : ℚ) / 1024 ^ 2))),
                 ("requests_total", .nat s1.requestCount),
                 ("requests_per_minute", .rat (round2 requestRate)),
                 ("uptime_seconds", .rat (totalSeconds (elapsedMicros s1 env))) ]),
             ("alerts", .obj
               [ ("cpu_high", .bool (decide (80 < cpu))),
                 ("memory_high", .bool (decide (80 < mem.percent))),
                 ("disk_high", .bool (decide (80 < (disk.used : ℚ) / (disk.total : ℚ) * 100))) ]) ]) }

/-- `GET /metrics`. -/
def metrics (s : AppState) (env : Env) : AppState × Except String Response :=
  let s1 := incr s
  (s1, metricsBody s1 env)

/-- The body computation of `GET /prometheus` after the counter increment. -/
def prometheusBody (s1 : AppState) (env : Env) : Except String Response :=
  match env.cpuPercent with
  | .error e => .error e
  | .ok cpu =>
  match env.virtualMemory with
  | .error e => .error e
  | .ok mem =>
  match env.diskUsage with
  | .error e => .error e
  | .ok disk =>
  .ok { code := 200,
         body := .prom (promLines s1.requestCount
                          (totalSeconds (elapsedMicros s1 env)) cpu
                          mem.used disk.used disk.total env.unixTime) }

/-- `GET /prometheus`. -/
def prometheus_metrics (s : AppState) (env : Env) : AppState × Except String Response :=
  let s1 := incr s
  (s1, prometheusBody s1 env)

/-- `GET /api/info` — static body. -/
def api_info (s : AppState) (_env : Env) : AppState × Response :=
  let s1 := incr s
  (s1, { code := 200,
         body := .json (.obj
           [ ("api", .obj
               [ ("name", .str "EKS CloudForge API"),
                 ("version", .str "1.0.0"),
                 ("description", .str "Lightweight Flask API for DevOps pipeline demonstration"),
                 ("endpoints", .obj
                   [ ("GET /", .str "Main application page"),
                     ("GET /health", .str "Health check endpoint"),
                     ("GET /status", .str "Detailed application status"),
                     ("GET /metrics", .str "System metrics (JSON)"),
                     ("GET /prometheus", .str "Prometheus metrics (text/plain)"),
                     ("GET /api/info", .str "API information (this endpoint)") ]) ]),
             ("deployment", .obj
               [ ("containerized", .bool true),
                 ("orchestrator", .str "Kubernetes (EKS)"),
                 ("instance_type", .str "t3.micro"),
                 ("cost_optimized", .bool true),
                 ("auto_scaling", .bool true) ]) ]) })

/-- The 404 error handler. -/
def not_found (s : AppState) (_env : Env) : AppState × Response :=
  let s1 := incr s
  (s1, { code := 404,
         body := .json (.obj
           [ ("error", .str "Not Found"),
             ("message", .str "The requested endpoint does not exist"),
             ("available_endpoints", .arr
               [ .str "/", .str "/health", .str "/status", .str "/metrics",
                 .str "/prometheus", .str "/api/info" ]) ]) })

/-- The 500 error handler. -/
def internal_error (s : AppState) (env : Env) : AppState × Response :=
  let s1 := incr s
  (s1, { code := 500,
         body := .json (.obj
           [ ("error", .str "Internal Server Error"),
             ("message", .str "An unexpected error occurred"),
             ("timestamp", .str env.nowIso) ]) })

/-- The six registered routes. -/
inductive Route where
  | root | health | status | metrics | prometheus | apiInfo

/-- Flask's URL map: path → route, `none` for any unmatched path. -/
def routeOf (p : String) : Option Route :=
  if p = "/" then some .root
  else if p = "/health" then some .health
  else if p = "/status" then some .status
  else if p = "/metrics" then some .metrics
  else if p = "/prometheus" then some .prometheus
  else if p = "/api/info" then some .apiInfo
  else none

/-- Run one route handler; infallible handlers are wrapped in `.ok`. -/
def runRoute : Route → AppState → Env → AppState × Except String Response
  | .root, s, env => let (s1, r) := index s env; (s1, .ok r)
  | .health, s, env => let (s1, r) := health s env; (s1, .ok r)
  | .status, s, env => status s env
  | .metrics, s, env => metrics s env
  | .prometheus, s, env => prometheus_metrics s env
  | .apiInfo, s, env => let (s1, r) := api_info s env; (s1, .ok r)

/-- Full request dispatch, as Flask performs it: an unmatched path goes to
`not_found`; an exception escaping a route handler is answered by
`internal_error` (which increments the counter again, on top of the
increment the aborted handler already performed). -/
def handle (path : String) (s : AppState) (env : Env) : AppState × Response :=
  match routeOf path with
  | none => not_found s env
  | some r =>
    match runRoute r s env with
    | (s1, .ok resp) => (s1, resp)
    | (s1, .error _) => internal_error s1 env

/-- One handler invocation, for counting purposes: the six route handlers
plus the two error handlers. -/
inductive Handler where
  | index | health | status | metrics | prometheus | apiInfo
  | notFound | internalError

/-- Run any of the eight handlers (the response is discarded by callers that
only track state). -/
def runHandler : Handler → AppState → Env → AppState × Except String Response
  | .index, s, env => let (s1, r) := index s env; (s1, .ok r)
  | .health, s, env => let (s1, r) := health s env; (s1, .ok r)
  | .status, s, env => status s env
  | .metrics, s, env => metrics s env
  | .prometheus, s, env => prometheus_metrics s env
  | .apiInfo, s, env => let (s1, r) := api_info s env; (s1, .ok r)
  | .notFound, s, env => let (s1, r) := not_found s env; (s1, .ok r)
  | .internalError, s, env => let (s1, r) := internal_error s env; (s1, .ok r)

/-- Process a batch of handler invocations sequentially, threading the
application state. -/
def processAll (reqs : List (Handler × Env)) (s : AppState) : AppState :=
  reqs.foldl (fun st pr => (runHandler pr.1 st pr.2).1) s

/-- The metric name of a sample line, `none` for comment lines. -/
def sampleName : PromLine → Option String
  | .sample n _ _ => some n
  | _ => none

/-- The names of all sample (value) lines, in order. -/
def sampleNames (ls : List PromLine) : List String :=
  ls.filterMap sampleName

/-- The value of the first sample line bearing the given metric name. -/
def sampleValue (ls : List PromLine) (n : String) : Option ℚ :=
  match ls with
  | [] => none
  | .sample m _ v :: rest => if m = n then some v else sampleValue rest n
  | _ :: rest => sampleValue rest n

/-- Helper for `typedOk`: walking the line list with the previous line at
hand, require every sample line to be directly preceded by a `# TYPE` line
carrying the same metric name. -/
def precededOk : PromLine → List PromLine → Bool
  | _, [] => true
  | prev, l :: rest =>
    (match l with
     | .sample n _ _ =>
       (match prev with
        | .type m _ => m = n
        | _ => false)
     | _ => true) && precededOk l rest

/-- Every sample line in the list is immediately preceded by a `# TYPE` line
for the same metric (and the list does not start with a sample line). -/
def typedOk : List PromLine → Bool
  | [] => true
  | l :: rest =>
    (match l with
     | .sample _ _ _ => false
     | _ => true) && precededOk l rest

/-!
Model of the unsynchronized counter increment under threads (claim about
concurrency).  `REQUEST_COUNT += 1` on a Python global is not one atomic
action: it executes as a load of the global, an add, and a store, and the
interpreter may switch threads between these bytecodes.  Two threads each
performing the increment are modelled below; a schedule is a list of
booleans naming which thread takes its next step.
-/

/-- A thread performing `REQUEST_COUNT += 1`: program counter
(0 = about to load, 1 = loaded into `reg`, about to store, 2 = done)
and the loaded value. -/
structure IncThread where
  pc : ℕ
  reg : ℕ

/-- One step of a thread against the shared counter: load at pc 0,
store of `reg + 1` at pc 1. -/
def threadStep (c : ℕ) (t : IncThread) : ℕ × IncThread :=
  if t.pc = 0 then (c, { pc := 1, reg := c })
  else if t.pc = 1 then (t.reg + 1, { pc := 2, reg := t.reg })
  else (c, t)

/-- Shared counter plus two incrementing threads. -/
structure ConcState where
  counter : ℕ
  t1 : IncThread
  t2 : IncThread

/-- Let the scheduled thread (`false` = thread 1, `true` = thread 2) take
one step. -/
def schedStep (st : ConcState) (who : Bool) : ConcState :=
  if who then
    let p := threadStep st.counter st.t2
    { st with counter := p.1, t2 := p.2 }
  else
    let p := threadStep st.counter st.t1
    { st with counter := p.1, t1 := p.2 }

/-- Run a schedule of thread steps. -/
def runSched (init : ConcState) (sched : List Bool) : ConcState :=
  sched.foldl schedStep init

/-- Both threads at the start of their increment, counter at `c0`. -/
def initConc (c0 : ℕ) : ConcState :=
  { counter := c0, t1 := { pc := 0, reg := 0 }, t2 := { pc := 0, reg := 0 } }

/-!  Concrete data used by the witness theorems. -/

/-- A memory snapshot with all reads succeeding (8 GB total, 4 GB
available/used, 50 %). -/
def okMem : MemStats :=
  { total := 8589934592, available := 4294967296, used := 4294967296, percent := 50 }

/-- A disk snapshot (100 GB total, 50 GB used/free). -/
def okDisk : DiskStats :=
  { total := 107374182400, used := 53687091200, free := 53687091200 }

/-- An environment in which every psutil read succeeds, 5.123456 s after
process start. -/
def okEnv : Env :=
  { cpuPercent := .ok 25,
    virtualMemory := .ok okMem,
    diskUsage := .ok okDisk,
    nowMicros := 5123456,
    nowIso := "2026-01-01T00:00:05.123456",
    unixTime := 1767225605,
    hostname := "node-1",
    platformStr := "Linux-6.1",
    pythonVersion := "3.11.0",
    cpuCount := 4,
    awsRegion := none,
    eksClusterName := none,
    podName := none,
    podNamespace := none }

/-- An environment in which `psutil.cpu_percent` raises (the other reads
succeed). -/
def cpuFailEnv : Env :=
  { okEnv with cpuPercent := .error "CPU error" }

/-- Initial application state: process just started, zero requests. -/
def st0 : AppState :=
  { startMicros := 0,
    startIso := "2026-01-01T00:00:00",
    startStrftime := "2026-01-01 00:00:00",
    requestCount := 0 }

/-! ## Helper lemmas -/

/-- Every handler, on any state and environment, increments the request
counter by exactly one. -/
theorem runHandler_requestCount (h : Handler) (s : AppState) (env : Env) :
    ((runHandler h s env).1).requestCount = s.requestCount + 1 := by
  cases h <;> rfl

/-- The truncation `split(".")[0]` keeps only characters before the first
dot, so its result never contains a dot. -/
theorem beforeDot_no_dot (l : List Char) : '.' ∉ beforeDot l := by
  induction l with
  | nil => simp [beforeDot]
  | cons a as ih =>
    by_cases h : a = '.'
    · simp [beforeDot, h]
    · simp [beforeDot, h, ih, eq_comm]

/-- The uptime string produced by the handlers contains no dot, hence no
fractional-second component. -/
theorem uptimeStr_no_dot (m : ℕ) : '.' ∉ (uptimeStr m).data :=
  beforeDot_no_dot (timedeltaStr m).data

/-- `round(0, 2) = 0`. -/
theorem round2_zero : round2 0 = 0 := by
  norm_num [round2, roundHalfEven]

/-! ## Claim theorems -/

/-- C1: for every starting counter value and every sequence of N handled
requests — any combination of the six routes and the 404/500 error
handlers — the request counter after the sequence equals the counter before
plus exactly N. -/
theorem counter_increases_by_batch_length (reqs : List (Handler × Env)) (s : AppState) :
    (processAll reqs s).requestCount = s.requestCount + reqs.length := by
  induction reqs generalizing s with
  | nil => simp [processAll]
  | cons pr rest ih =>
    have hstep := runHandler_requestCount pr.1 s pr.2
    simp only [processAll, List.foldl_cons, List.length_cons] at ih ⊢
    rw [ih, hstep]
    omega

/-- C4: every request to `/health` is answered with HTTP 200 and a JSON body
whose `status` field is the literal "healthy", and which carries
`timestamp`, `uptime` and `requests_processed` fields — for every state and
environment, regardless of resource readings. -/
theorem health_route_always_healthy (s : AppState) (env : Env) :
    (handle "/health" s env).2.code = 200 ∧
    ∃ j, (handle "/health" s env).2.body = Body.json j ∧
      j.getKey "status" = some (Json.str "healthy") ∧
      (j.getKey "timestamp").isSome = true ∧
      (j.getKey "uptime").isSome = true ∧
      (j.getKey "requests_processed").isSome = true :=
  ⟨rfl, _, rfl, rfl, rfl, rfl, rfl⟩

/-- C2 (the code lacks the claimed behavior): when `psutil.cpu_percent`
raises during `/status` or `/metrics`, the handler does not return a normal
response with a per-category `error` field — the exception propagates and
the request is answered by the 500 handler's generic body, which carries
none of the metric categories. -/
theorem metric_read_failure_yields_500 :
    (handle "/status" st0 cpuFailEnv).2.code = 500 ∧
    (∃ j, (handle "/status" st0 cpuFailEnv).2.body = Body.json j ∧
      j.getKey "error" = some (Json.str "Internal Server Error") ∧
      j.getKey "application" = none ∧ j.getKey "system" = none ∧
      j.getKey "cpu" = none) ∧
    (handle "/metrics" st0 cpuFailEnv).2.code = 500 ∧
    (∃ j, (handle "/metrics" st0 cpuFailEnv).2.body = Body.json j ∧
      j.getKey "error" = some (Json.str "Internal Server Error") ∧
      j.getKey "metrics" = none ∧ j.getKey "alerts" = none ∧
      j.getKey "cpu" = none) :=
  ⟨rfl, ⟨_, rfl, rfl, rfl, rfl, rfl⟩, rfl, ⟨_, rfl, rfl, rfl, rfl, rfl⟩⟩

/-- C8: every request whose path is not one of the six registered routes is
answered with HTTP 404 and a JSON body whose `error` field is "Not Found"
and whose `available_endpoints` list is exactly the six routes. -/
theorem unknown_path_returns_404 (path : String) (s : AppState) (env : Env)
    (h : path ∉ ["/", "/health", "/status", "/metrics", "/prometheus", "/api/info"]) :
    (handle path s env).2.code = 404 ∧
    ∃ j, (handle path s env).2.body = Body.json j ∧
      j.getKey "error" = some (Json.str "Not Found") ∧
      j.getKey "available_endpoints" =
        some (Json.arr [Json.str "/", Json.str "/health", Json.str "/status",
          Json.str "/metrics", Json.str "/prometheus", Json.str "/api/info"]) := by
  have hr : routeOf path = none := by
    simp only [List.mem_cons, List.not_mem_nil, or_false, not_or] at h
    obtain ⟨h1, h2, h3, h4, h5, h6⟩ := h
    simp [routeOf, h1, h2, h3, h4, h5, h6]
  rw [handle, hr]
  exact ⟨rfl, _, rfl, rfl, rfl⟩

/-- Witness for C8 at the concrete path "/nope". -/
theorem unknown_path_returns_404_witness :
    "/nope" ∉ ["/", "/health", "/status", "/metrics", "/prometheus", "/api/info"] ∧
    ((handle "/nope" st0 okEnv).2.code = 404 ∧
     ∃ j, (handle "/nope" st0 okEnv).2.body = Body.json j ∧
       j.getKey "error" = some (Json.str "Not Found") ∧
       j.getKey "available_endpoints" =
         some (Json.arr [Json.str "/", Json.str "/health", Json.str "/status",
           Json.str "/metrics", Json.str "/prometheus", Json.str "/api/info"])) :=
  ⟨by decide, unknown_path_returns_404 "/nope" st0 okEnv (by decide)⟩

/-- C9 (the code lacks the claimed behavior): `REQUEST_COUNT += 1` is an
unsynchronized load/store pair, so two interleaved requests can both load
the old counter and the final counter gains only 1 — a lost update.  The
schedule below interleaves the two loads before either store. -/
theorem unsync_increment_lost_update :
    (runSched (initConc 0) [false, true, false, true]).t1.pc = 2 ∧
    (runSched (initConc 0) [false, true, false, true]).t2.pc = 2 ∧
    (runSched (initConc 0) [false, true, false, true]).counter = 1 ∧
    (runSched (initConc 0) [false, true, false, true]).counter ≠ 0 + 2 := by
  refine ⟨rfl, rfl, rfl, ?_⟩
  decide

/-- C3: in the `/metrics` response, each alert boolean is true exactly when
the corresponding sampled value is strictly greater than 80; a value of
exactly 80 yields `false`. -/
theorem metrics_alert_thresholds (s : AppState) (env : Env) (cpu : ℚ)
    (mem : MemStats) (disk : DiskStats)
    (hc : env.cpuPercent = Except.ok cpu)
    (hm : env.virtualMemory = Except.ok mem)
    (hd : env.diskUsage = Except.ok disk)
    (ht : disk.total ≠ 0) :
    ∃ s1 r j, metrics s env = (s1, Except.ok r) ∧ r.body = Body.json j ∧
      (j.getKey "alerts").bind (fun a => a.getKey "cpu_high")
          = some (Json.bool (decide (80 < cpu))) ∧
      (j.getKey "alerts").bind (fun a => a.getKey "memory_high")
          = some (Json.bool (decide (80 < mem.percent))) ∧
      (j.getKey "alerts").bind (fun a => a.getKey "disk_high")
          = some (Json.bool (decide (80 < (disk.used : ℚ) / (disk.total : ℚ) * 100))) ∧
      (cpu = 80 →
        (j.getKey "alerts").bind (fun a => a.getKey "cpu_high")
          = some (Json.bool false)) ∧
      (mem.percent = 80 →
        (j.getKey "alerts").bind (fun a => a.getKey "memory_high")
          = some (Json.bool false)) ∧
      ((disk.used : ℚ) / (disk.total : ℚ) * 100 = 80 →
        (j.getKey "alerts").bind (fun a => a.getKey "disk_high")
          = some (Json.bool false)) := by
  simp only [metrics, metricsBody, hc, hm, hd]
  rw [if_neg ht]
  refine ⟨_, _, _, rfl, rfl, rfl, rfl, rfl, ?_, ?_, ?_⟩
  · intro h
    rw [h]
    norm_num
    rfl
  · intro h
    rw [h]
    norm_num
    rfl
  · intro h
    rw [h]
    norm_num
    rfl

/-- C5: the `/prometheus` line list has a `# TYPE` comment line immediately
preceding each metric's value line, and every emitted metric name appears in
at most one value line. -/
theorem prometheus_type_lines_and_unique_names (s : AppState) (env : Env)
    (cpu : ℚ) (mem : MemStats) (disk : DiskStats)
    (hc : env.cpuPercent = Except.ok cpu)
    (hm : env.virtualMemory = Except.ok mem)
    (hd : env.diskUsage = Except.ok disk) :
    ∃ s1 r lines, prometheus_metrics s env = (s1, Except.ok r) ∧
      r.body = Body.prom lines ∧
      typedOk lines = true ∧
      (sampleNames lines).Nodup := by
  simp only [prometheus_metrics, prometheusBody, hc, hm, hd]
  refine ⟨_, _, _, rfl, rfl, rfl, ?_⟩
  have hnames : sampleNames (promLines (incr s).requestCount
      (totalSeconds (elapsedMicros (incr s) env)) cpu mem.used disk.used
      disk.total env.unixTime)
      = ["app_requests_total", "app_uptime_seconds",
         "container_cpu_usage_seconds_total", "container_memory_usage_bytes",
         "container_fs_usage_bytes", "container_fs_limit_bytes",
         "http_requests_total", "http_request_duration_seconds_sum",
         "http_request_duration_seconds_count", "app_cost_per_hour",
         "app_metrics_timestamp"] := rfl
  rw [hnames]
  decide

/-- C6: the uptime strings of `/health` and `/status` contain no dot, hence
no fractional-second component, while `uptime_seconds` in `/metrics` is the
raw elapsed seconds value, retaining sub-second precision. -/
theorem uptime_truncated_and_raw_seconds (s : AppState) (env : Env) (cpu : ℚ)
    (mem : MemStats) (disk : DiskStats)
    (hc : env.cpuPercent = Except.ok cpu)
    (hm : env.virtualMemory = Except.ok mem)
    (hd : env.diskUsage = Except.ok disk)
    (ht : disk.total ≠ 0) :
    (∃ j, (health s env).2.body = Body.json j ∧
      j.getKey "uptime" = some (Json.str (uptimeStr (elapsedMicros (incr s) env)))) ∧
    (∃ s1 r j, status s env = (s1, Except.ok r) ∧ r.body = Body.json j ∧
      (j.getKey "application").bind (fun a => a.getKey "uptime")
        = some (Json.str (uptimeStr (elapsedMicros (incr s) env)))) ∧
    '.' ∉ (uptimeStr (elapsedMicros (incr s) env)).data ∧
    (∃ s1 r j, metrics s env = (s1, Except.ok r) ∧ r.body = Body.json j ∧
      (j.getKey "metrics").bind (fun m0 => m0.getKey "uptime_seconds")
        = some (Json.rat ((elapsedMicros (incr s) env : ℚ) / 1000000))) := by
  refine ⟨⟨_, rfl, rfl⟩, ?_, uptimeStr_no_dot _, ?_⟩
  · simp only [status, statusBody, hc, hm, hd]
    rw [if_neg ht]
    exact ⟨_, _, _, rfl, rfl, rfl⟩
  · simp only [metrics, metricsBody, hc, hm, hd]
    rw [if_neg ht]
    exact ⟨_, _, _, rfl, rfl, rfl⟩

/-- C7: `requests_per_minute` in `/metrics` equals the (post-increment)
counter divided by the elapsed minutes, rounded to two decimals, when the
elapsed time is strictly positive, and equals 0 when the elapsed time is
zero — the division is guarded, so no division by zero occurs. -/
theorem requests_per_minute_formula (s : AppState) (env : Env) (cpu : ℚ)
    (mem : MemStats) (disk : DiskStats)
    (hc : env.cpuPercent = Except.ok cpu)
    (hm : env.virtualMemory = Except.ok mem)
    (hd : env.diskUsage = Except.ok disk)
    (ht : disk.total ≠ 0) :
    ∃ s1 r j, metrics s env = (s1, Except.ok r) ∧ r.body = Body.json j ∧
      (0 < elapsedMicros (incr s) env →
        (j.getKey "metrics").bind (fun m0 => m0.getKey "requests_per_minute")
          = some (Json.rat (round2 (((s.requestCount + 1 : ℕ) : ℚ) /
              ((elapsedMicros (incr s) env : ℚ) / 1000000 / 60))))) ∧
      (elapsedMicros (incr s) env = 0 →
        (j.getKey "metrics").bind (fun m0 => m0.getKey "requests_per_minute")
          = some (Json.rat 0)) := by
  simp only [metrics, metricsBody, hc, hm, hd]
  rw [if_neg ht]
  refine ⟨_, _, _, rfl, rfl, ?_, ?_⟩
  · intro hpos
    have hq : (0:ℚ) < totalSeconds (elapsedMicros (incr s) env) / 60 := by
      have hcast : (0:ℚ) < (elapsedMicros (incr s) env : ℚ) := by exact_mod_cast hpos
      unfold totalSeconds
      positivity
    rw [if_pos hq]
    rfl
  · intro hz
    rw [hz]
    have hcond : ¬ (0:ℚ) < totalSeconds 0 / 60 := by norm_num [totalSeconds]
    rw [if_neg hcond, round2_zero]
    rfl

/-- C10: the counter value reported in each response body is the counter
taken after the current request's own increment: it equals the pre-request
counter plus one, hence counts the request being handled, is at least 1 and
strictly greater than the counter before the request. -/
theorem reported_counter_post_increment (s : AppState) (env : Env) (cpu : ℚ)
    (mem : MemStats) (disk : DiskStats)
    (hc : env.cpuPercent = Except.ok cpu)
    (hm : env.virtualMemory = Except.ok mem)
    (hd : env.diskUsage = Except.ok disk)
    (ht : disk.total ≠ 0) :
    (∃ j, (health s env).2.body = Body.json j ∧
      j.getKey "requests_processed" = some (Json.nat (s.requestCount + 1))) ∧
    (∃ s1 r j, status s env = (s1, Except.ok r) ∧ r.body = Body.json j ∧
      (j.getKey "application").bind (fun a => a.getKey "requests_processed")
        = some (Json.nat (s.requestCount + 1))) ∧
    (∃ s1 r j, metrics s env = (s1, Except.ok r) ∧ r.body = Body.json j ∧
      (j.getKey "metrics").bind (fun m0 => m0.getKey "requests_total")
        = some (Json.nat (s.requestCount + 1))) ∧
    (∃ s1 r lines, prometheus_metrics s env = (s1, Except.ok r) ∧
      r.body = Body.prom lines ∧
      sampleValue lines "app_requests_total" = some ((s.requestCount + 1 : ℕ) : ℚ) ∧
      sampleValue lines "http_requests_total" = some ((s.requestCount + 1 : ℕ) : ℚ)) ∧
    s.requestCount < s.requestCount + 1 ∧
    1 ≤ s.requestCount + 1 := by
  refine ⟨⟨_, rfl, rfl⟩, ?_, ?_, ?_, Nat.lt_succ_self _, Nat.succ_le_succ (Nat.zero_le _)⟩
  · simp only [status, statusBody, hc, hm, hd]
    rw [if_neg ht]
    exact ⟨_, _, _, rfl, rfl, rfl⟩
  · simp only [metrics, metricsBody, hc, hm, hd]
    rw [if_neg ht]
    exact ⟨_, _, _, rfl, rfl, rfl⟩
  · simp only [prometheus_metrics, prometheusBody, hc, hm, hd]
    exact ⟨_, _, _, rfl, rfl, rfl, rfl⟩

/-- Witness for C3 at a concrete state and environment. -/
theorem metrics_alert_thresholds_witness :
    okDisk.total ≠ 0 ∧
    (∃ s1 r j, metrics st0 okEnv = (s1, Except.ok r) ∧ r.body = Body.json j ∧
      (j.getKey "alerts").bind (fun a => a.getKey "cpu_high")
          = some (Json.bool (decide (80 < (25 : ℚ)))) ∧
      (j.getKey "alerts").bind (fun a => a.getKey "memory_high")
          = some (Json.bool (decide (80 < okMem.percent))) ∧
      (j.getKey "alerts").bind (fun a => a.getKey "disk_high")
          = some (Json.bool (decide (80 < (okDisk.used : ℚ) / (okDisk.total : ℚ) * 100))) ∧
      ((25 : ℚ) = 80 →
        (j.getKey "alerts").bind (fun a => a.getKey "cpu_high")
          = some (Json.bool false)) ∧
      (okMem.percent = 80 →
        (j.getKey "alerts").bind (fun a => a.getKey "memory_high")
          = some (Json.bool false)) ∧
      ((okDisk.used : ℚ) / (okDisk.total : ℚ) * 100 = 80 →
        (j.getKey "alerts").bind (fun a => a.getKey "disk_high")
          = some (Json.bool false))) :=
  ⟨by decide, metrics_alert_thresholds st0 okEnv 25 okMem okDisk rfl rfl rfl (by decide)⟩

/-- Witness for C5 at a concrete state and environment. -/
theorem prometheus_type_lines_and_unique_names_witness :
    ∃ s1 r lines, prometheus_metrics st0 okEnv = (s1, Except.ok r) ∧
      r.body = Body.prom lines ∧
      typedOk lines = true ∧
      (sampleNames lines).Nodup :=
  prometheus_type_lines_and_unique_names st0 okEnv 25 okMem okDisk rfl rfl rfl

/-- Witness for C6 at a concrete state and environment (5.123456 s of
uptime, so the truncation is observable). -/
theorem uptime_truncated_and_raw_seconds_witness :
    okDisk.total ≠ 0 ∧
    ((∃ j, (health st0 okEnv).2.body = Body.json j ∧
      j.getKey "uptime" = some (Json.str (uptimeStr (elapsedMicros (incr st0) okEnv)))) ∧
    (∃ s1 r j, status st0 okEnv = (s1, Except.ok r) ∧ r.body = Body.json j ∧
      (j.getKey "application").bind (fun a => a.getKey "uptime")
        = some (Json.str (uptimeStr (elapsedMicros (incr st0) okEnv)))) ∧
    '.' ∉ (uptimeStr (elapsedMicros (incr st0) okEnv)).data ∧
    (∃ s1 r j, metrics st0 okEnv = (s1, Except.ok r) ∧ r.body = Body.json j ∧
      (j.getKey "metrics").bind (fun m0 => m0.getKey "uptime_seconds")
        = some (Json.rat ((elapsedMicros (incr st0) okEnv : ℚ) / 1000000)))) :=
  ⟨by decide, uptime_truncated_and_raw_seconds st0 okEnv 25 okMem okDisk rfl rfl rfl (by decide)⟩

/-- Witness for C7 at a concrete state and environment. -/
theorem requests_per_minute_formula_witness :
    okDisk.total ≠ 0 ∧
    (∃ s1 r j, metrics st0 okEnv = (s1, Except.ok r) ∧ r.body = Body.json j ∧
      (0 < elapsedMicros (incr st0) okEnv →
        (j.getKey "metrics").bind (fun m0 => m0.getKey "requests_per_minute")
          = some (Json.rat (round2 (((st0.requestCount + 1 : ℕ) : ℚ) /
              ((elapsedMicros (incr st0) okEnv : ℚ) / 1000000 / 60))))) ∧
      (elapsedMicros (incr st0) okEnv = 0 →
        (j.getKey "metrics").bind (fun m0 => m0.getKey "requests_per_minute")
          = some (Json.rat 0))) :=
  ⟨by decide, requests_per_minute_formula st0 okEnv 25 okMem okDisk rfl rfl rfl (by decide)⟩

/-- Witness for C10 at a concrete state and environment. -/
theorem reported_counter_post_increment_witness :
    okDisk.total ≠ 0 ∧
    ((∃ j, (health st0 okEnv).2.body = Body.json j ∧
      j.getKey "requests_processed" = some (Json.nat (st0.requestCount + 1))) ∧
    (∃ s1 r j, status st0 okEnv = (s1, Except.ok r) ∧ r.body = Body.json j ∧
      (j.getKey "application").bind (fun a => a.getKey "requests_processed")
        = some (Json.nat (st0.requestCount + 1))) ∧
    (∃ s1 r j, metrics st0 okEnv = (s1, Except.ok r) ∧ r.body = Body.json j ∧
      (j.getKey "metrics").bind (fun m0 => m0.getKey "requests_total")
        = some (Json.nat (st0.requestCount + 1))) ∧
    (∃ s1 r lines, prometheus_metrics st0 okEnv = (s1, Except.ok r) ∧
      r.body = Body.prom lines ∧
      sampleValue lines "app_requests_total" = some ((st0.requestCount + 1 : ℕ) : ℚ) ∧
      sampleValue lines "http_requests_total" = some ((st0.requestCount + 1 : ℕ) : ℚ)) ∧
    st0.requestCount < st0.requestCount + 1 ∧
    1 ≤ st0.requestCount + 1) :=
  ⟨by decide, reported_counter_post_increment st0 okEnv 25 okMem okDisk rfl rfl rfl (by decide)⟩

end CloudForge
